import Mathlib

/-!
Shallow embedding of the thumbs.com server (src/unnamed/part_001) and proofs
about the claims of its specification.

Modelling conventions:
* MongoDB ObjectIds are `Nat`; collections are association lists `List (Nat × _)`
  keyed by id, in insertion order.
* Wall-clock time (`Date.now()`, `new Date()`) is an explicit `Nat` parameter.
* Mongoose `doc.save()` is modelled as writing the whole in-memory document back
  to the store; `findByIdAndUpdate` / `updateOne` read-modify-write the stored
  document.  Display-only fields (descriptions, titles of notifications,
  avatars, bcrypt hashes, JWT contents) are omitted; fields any claim touches
  are kept.
* WebSocket sends are an append-only event log `outMsgs` in the world state;
  the delivery filter (`connectedClients.get(...)` + readyState check) is the
  `clients` registry.
-/

namespace Thumbs

/-- Association-list lookup (first match), standing for a keyed Mongo query. -/
def alookup {α : Type} : List (Nat × α) → Nat → Option α
  | [], _ => none
  | p :: ps, k => if p.1 = k then some p.2 else alookup ps k

/-- Replace the value stored at a key (a `save()` of an existing document);
keys and their order are unchanged. -/
def aset {α : Type} : List (Nat × α) → Nat → α → List (Nat × α)
  | [], _, _ => []
  | p :: ps, k, v => (if p.1 = k then (k, v) else p) :: aset ps k v

/-- Insert-or-replace, the semantics of JavaScript `Map.prototype.set`. -/
def aupsert {α : Type} (l : List (Nat × α)) (k : Nat) (v : α) : List (Nat × α) :=
  if (alookup l k).isSome then aset l k v else l ++ [(k, v)]

/-- Removal, the semantics of JavaScript `Map.prototype.delete` /
Mongo `$pull` by key. -/
def adelete {α : Type} : List (Nat × α) → Nat → List (Nat × α)
  | [], _ => []
  | p :: ps, k => if p.1 = k then adelete ps k else p :: adelete ps k

inductive UStatus | online | offline | inGame | away
deriving DecidableEq

/-- `User` document (the fields the claims are about). -/
structure UserDoc where
  username : String
  email : String
  displayName : String
  balance : Int
  totalEarned : Int
  totalSupported : Int
  chartsCreated : Nat
  chartsWon : Nat
  ustatus : UStatus
deriving DecidableEq

inductive CStatus | opened | inProgress | completed | cancelled
deriving DecidableEq

inductive PStatus | pending | active | completed | withdrawn
deriving DecidableEq

/-- An entry of `chart.participants`. -/
structure CParticipant where
  user : Nat
  joinedAt : Nat
  score : Int
  moves : Int
  pstatus : PStatus
deriving DecidableEq

/-- `Chart` document.  `opened` models status string "open". -/
structure ChartDoc where
  creator : Nat
  entryFee : Int
  prize : Int
  prizePool : Int
  cstatus : CStatus
  participants : List CParticipant
  maxParticipants : Nat
  minParticipants : Nat
  startsAt : Nat
  endsAt : Option Nat
  donations : List Nat
  totalDonations : Int
  winner : Option Nat
deriving DecidableEq

inductive PlStatus | waiting | playing | finished | disconnected
deriving DecidableEq

/-- An entry of `arena.players`. -/
structure Player where
  user : Nat
  score : Int
  moves : Int
  plstatus : PlStatus
deriving DecidableEq

/-- An entry of `arena.spectators`: `$addToSet` compares this whole subdocument. -/
structure Spectator where
  user : Nat
  joinedAt : Nat
deriving DecidableEq

inductive AStatus | waiting | live | paused | finished
deriving DecidableEq

/-- `Arena` document. -/
structure ArenaDoc where
  chart : Nat
  players : List Player
  astatus : AStatus
  spectators : List Spectator
  winner : Option Nat
  startedAt : Option Nat
  endedAt : Option Nat
  updatedAt : Nat
deriving DecidableEq

inductive DStatus | pending | completed | refunded | failed
deriving DecidableEq

/-- `Donation` document (field `user` is the donor, as in the schema). -/
structure DonationDoc where
  user : Nat
  chart : Nat
  recipient : Nat
  amount : Int
  dstatus : DStatus
deriving DecidableEq

inductive TxType
  | deposit | withdrawal | entryFee | prize | donation | shoutout | refund | bonus
deriving DecidableEq

/-- The `reference` field of a transaction: a chart id, a donation id, or the
literal string `'chart_creation'`. -/
inductive TxRef | chartRef (id : Nat) | donationRef (id : Nat) | chartCreation
deriving DecidableEq

/-- `Transaction` (ledger) document. -/
structure Txn where
  user : Nat
  ttype : TxType
  amount : Int
  balance : Int
  reference : Option TxRef
deriving DecidableEq

inductive NType
  | shoutout | donation | chartJoined | chartCompleted | arenaInvite
  | follow | achievement | system | matchStart | prizeWon
deriving DecidableEq

/-- `Notification` document (title/message strings omitted, ids kept). -/
structure NotifDoc where
  user : Nat
  ntype : NType
  chartId : Option Nat
  arenaId : Option Nat
deriving DecidableEq

/-- Outbound realtime messages; each carries the list of user ids it was
actually delivered to (connected, non-excluded). -/
inductive OutMsg
  | scoreUpdate (recipients : List Nat) (arenaId playerId : Nat)
      (score : Int) (moves : Option Int)
  | spectatorJoined (recipients : List Nat) (arenaId userId : Nat)
  | spectatorLeft (recipients : List Nat) (arenaId userId : Nat)
  | arenaStateMsg (toConn arenaId : Nat)
  | arenaCompleted (recipients : List Nat) (arenaId winnerId : Nat) (prize : Int)
  | notificationMsg (userId : Nat) (ntype : NType)
  | userStatus (recipients : List Nat) (userId : Nat) (st : UStatus)
  | authSuccess (toConn userId : Nat)
  | authError (toConn : Nat)
  | errorMsg (toConn : Nat)
deriving DecidableEq

/-- The whole persistent + in-process state the handlers touch. -/
structure World where
  users : List (Nat × UserDoc)
  charts : List (Nat × ChartDoc)
  arenas : List (Nat × ArenaDoc)
  donations : List (Nat × DonationDoc)
  txns : List Txn
  notifs : List NotifDoc
  clients : List (Nat × Nat)
  outMsgs : List OutMsg
  nextId : Nat
deriving DecidableEq

/-- Persist a notification and attempt realtime delivery if the recipient is
connected (the `new Notification(...).save()` + `connectedClients.get` pattern). -/
def pushNotif (w : World) (n : NotifDoc) : World :=
  let w1 := { w with notifs := w.notifs ++ [n] }
  match alookup w.clients n.user with
  | some _ => { w1 with outMsgs := w1.outMsgs ++ [OutMsg.notificationMsg n.user n.ntype] }
  | none => w1

/-- Users a `broadcastToArena` actually reaches: spectators then players,
minus the excluded user, minus the disconnected. -/
def arenaAudience (w : World) (ar : ArenaDoc) (excl : Option Nat) : List Nat :=
  (ar.spectators.map Spectator.user ++ ar.players.map Player.user).filter
    fun u => decide (excl ≠ some u) && (alookup w.clients u).isSome

/-- `broadcastToArena`: re-reads the arena, silently returns if absent. -/
def broadcastToArena (w : World) (arenaId : Nat) (excl : Option Nat)
    (mk : List Nat → OutMsg) : World :=
  match alookup w.arenas arenaId with
  | none => w
  | some ar => { w with outMsgs := w.outMsgs ++ [mk (arenaAudience w ar excl)] }

/-- `broadcastToAll`: every connected client except the excluded one. -/
def broadcastToAll (w : World) (excl : Option Nat) (mk : List Nat → OutMsg) : World :=
  { w with outMsgs := w.outMsgs ++
      [mk ((w.clients.map Prod.fst).filter fun u => decide (excl ≠ some u))] }

/-! ## POST /api/auth/register -/

structure RegInput where
  username : String
  email : String
  password : String
  displayName : String
deriving DecidableEq

inductive RegError
  | missingFields | badUsernameLength | shortPassword | badUsernameChars
  | emailTaken | usernameTaken
deriving DecidableEq

inductive RegResult | ok (userId : Nat) | err (e : RegError)
deriving DecidableEq

/-- The `/^\w+$/` username check. -/
def validUsernameChars (s : String) : Bool :=
  s.toList.all fun c => c.isAlphanum || c = '_'

def register (w : World) (i : RegInput) : World × RegResult :=
  if i.username = "" ∨ i.email = "" ∨ i.password = "" then
    (w, .err .missingFields)
  else if i.username.length < 3 ∨ i.username.length > 20 then
    (w, .err .badUsernameLength)
  else if i.password.length < 6 then
    (w, .err .shortPassword)
  else if ¬ validUsernameChars i.username then
    (w, .err .badUsernameChars)
  else
    match w.users.find? (fun p =>
        p.2.email = i.email.toLower || p.2.username = i.username.toLower) with
    | some p =>
      if p.2.email = i.email.toLower then (w, .err .emailTaken)
      else (w, .err .usernameTaken)
    | none =>
      let uid := w.nextId
      let u : UserDoc :=
        { username := i.username.toLower, email := i.email.toLower
          displayName := if i.displayName = "" then i.username else i.displayName
          balance := 100, totalEarned := 0, totalSupported := 0
          chartsCreated := 0, chartsWon := 0, ustatus := .offline }
      let tx : Txn :=
        { user := uid, ttype := .bonus, amount := 100, balance := 100, reference := none }
      ({ w with users := w.users ++ [(uid, u)], txns := w.txns ++ [tx],
                nextId := uid + 1 },
       .ok uid)

/-! ## POST /api/transactions/deposit -/

inductive DepError | invalidAmount | tooLarge | noUser
deriving DecidableEq

inductive DepResult | ok (balance : Int) | err (e : DepError)
deriving DecidableEq

def depositOp (w : World) (uid : Nat) (amount : Int) : World × DepResult :=
  if amount ≤ 0 then (w, .err .invalidAmount)
  else if amount > 10000 then (w, .err .tooLarge)
  else
    match alookup w.users uid with
    | none => (w, .err .noUser)
    | some u =>
      let u1 := { u with balance := u.balance + amount }
      let tx : Txn :=
        { user := uid, ttype := .deposit, amount := amount, balance := u1.balance,
          reference := none }
      ({ w with users := aset w.users uid u1, txns := w.txns ++ [tx] }, .ok u1.balance)

/-! ## POST /api/charts -/

structure CreateChartInput where
  title : String
  game : String
  entryFee : Int
  prize : Int
  maxParticipants : Option Nat
  minParticipants : Option Nat
deriving DecidableEq

inductive CCError
  | missingTitleGame | negativeFee | badMaxParticipants | insufficientBalance | noUser
deriving DecidableEq

inductive CCResult | ok (chartId : Nat) | err (e : CCError)
deriving DecidableEq

def createChart (w : World) (uid : Nat) (i : CreateChartInput) (now : Nat) :
    World × CCResult :=
  if i.title = "" ∨ i.game = "" then (w, .err .missingTitleGame)
  else if i.entryFee < 0 then (w, .err .negativeFee)
  else if (match i.maxParticipants with
           | some m => decide (m < 2 ∨ m > 8)
           | none => false) then (w, .err .badMaxParticipants)
  else
    match alookup w.users uid with
    | none => (w, .err .noUser)
    | some u =>
      if u.balance < i.entryFee then (w, .err .insufficientBalance)
      else
        let u1 := { u with balance := u.balance - i.entryFee }
        let tx : Txn :=
          { user := uid, ttype := .entryFee, amount := -i.entryFee,
            balance := u1.balance, reference := some .chartCreation }
        let cid := w.nextId
        let c : ChartDoc :=
          { creator := uid, entryFee := i.entryFee
            prize := if i.prize ≠ 0 then i.prize else i.entryFee * 2
            prizePool := i.entryFee * 2
            cstatus := .opened
            participants := [{ user := uid, joinedAt := now, score := 0, moves := 0,
                               pstatus := .active }]
            maxParticipants := i.maxParticipants.getD 2
            minParticipants := i.minParticipants.getD 2
            startsAt := now + 300000, endsAt := none
            donations := [], totalDonations := 0, winner := none }
        let w1 : World :=
          { w with users := aset w.users uid u1, txns := w.txns ++ [tx],
                   charts := w.charts ++ [(cid, c)], nextId := cid + 1 }
        let w2 : World :=
          match alookup w1.users uid with
          | some u2 =>
            let u3 := { u2 with chartsCreated := u2.chartsCreated + 1 }
            { w1 with users := aset w1.users uid u3 }
          | none => w1
        (w2, .ok cid)

/-! ## POST /api/charts/:chartId/join -/

inductive JoinError
  | chartNotFound | notOpen | full | alreadyJoined | started
  | insufficientBalance | noUser
deriving DecidableEq

inductive JoinResult | ok (participantCount : Nat) | err (e : JoinError)
deriving DecidableEq

def joinChart (w : World) (uid chartId : Nat) (now : Nat) : World × JoinResult :=
  match alookup w.charts chartId with
  | none => (w, .err .chartNotFound)
  | some c =>
    if c.cstatus ≠ .opened then (w, .err .notOpen)
    else if c.participants.length ≥ c.maxParticipants then (w, .err .full)
    else if c.participants.any (fun p => p.user = uid) then (w, .err .alreadyJoined)
    else if now > c.startsAt then (w, .err .started)
    else
      match alookup w.users uid with
      | none => (w, .err .noUser)
      | some u =>
        if u.balance < c.entryFee then (w, .err .insufficientBalance)
        else
          let u1 := { u with balance := u.balance - c.entryFee }
          let tx : Txn :=
            { user := uid, ttype := .entryFee, amount := -c.entryFee,
              balance := u1.balance, reference := some (.chartRef chartId) }
          let w1 : World :=
            { w with users := aset w.users uid u1, txns := w.txns ++ [tx] }
          let c1 : ChartDoc :=
            { c with prizePool := c.prizePool + c.entryFee
                     participants := c.participants ++
                       [{ user := uid, joinedAt := now, score := 0, moves := 0,
                          pstatus := .pending }] }
          let w2 : World := { w1 with charts := aset w1.charts chartId c1 }
          let w3 : World :=
            if c1.participants.length ≥ c1.maxParticipants then
              let c2 := { c1 with cstatus := .inProgress }
              let aid := w2.nextId
              let arena : ArenaDoc :=
                { chart := chartId
                  players := c1.participants.map fun p =>
                    { user := p.user, score := 0, moves := 0, plstatus := .playing }
                  astatus := .live, spectators := [], winner := none
                  startedAt := some now, endedAt := none, updatedAt := now }
              let wA : World :=
                { w2 with charts := aset w2.charts chartId c2,
                          arenas := w2.arenas ++ [(aid, arena)], nextId := aid + 1 }
              c1.participants.foldl (fun acc p =>
                pushNotif acc { user := p.user, ntype := .matchStart,
                                chartId := some chartId, arenaId := some aid }) wA
            else w2
          let w4 := pushNotif w3
            { user := c.creator, ntype := .chartJoined,
              chartId := some chartId, arenaId := none }
          (w4, .ok c1.participants.length)

/-! ## POST /api/donations -/

structure DonateInput where
  chartId : Nat
  recipientId : Nat
  amount : Int
deriving DecidableEq

inductive DonError
  | invalidAmount | belowMinimum | insufficientBalance
  | chartNotFound | recipientNotFound | noDonor
deriving DecidableEq

inductive DonResult
  | ok (donationId : Nat) (donorBalance recipientBalance : Int)
  | err (e : DonError)
deriving DecidableEq

def donate (w : World) (donorId : Nat) (i : DonateInput) : World × DonResult :=
  if i.amount ≤ 0 then (w, .err .invalidAmount)
  else if i.amount < 10 then (w, .err .belowMinimum)
  else
    match alookup w.users donorId with
    | none => (w, .err .noDonor)
    | some donor0 =>
      if donor0.balance < i.amount then (w, .err .insufficientBalance)
      else
        match alookup w.charts i.chartId with
        | none => (w, .err .chartNotFound)
        | some chart0 =>
          match alookup w.users i.recipientId with
          | none => (w, .err .recipientNotFound)
          | some recip0 =>
            let did := w.nextId
            let don : DonationDoc :=
              { user := donorId, chart := i.chartId, recipient := i.recipientId,
                amount := i.amount, dstatus := .completed }
            let w1 : World :=
              { w with donations := w.donations ++ [(did, don)], nextId := did + 1 }
            let donor1 :=
              { donor0 with balance := donor0.balance - i.amount
                            totalSupported := donor0.totalSupported + i.amount }
            let w2 : World := { w1 with users := aset w1.users donorId donor1 }
            -- `recipient` was loaded before the donor's save; if
            -- donorId = recipientId this save overwrites the debit.
            let recip1 :=
              { recip0 with balance := recip0.balance + i.amount
                            totalEarned := recip0.totalEarned + i.amount }
            let w3 : World := { w2 with users := aset w2.users i.recipientId recip1 }
            let txd : Txn :=
              { user := donorId, ttype := .donation, amount := -i.amount,
                balance := donor1.balance, reference := some (.donationRef did) }
            let txr : Txn :=
              { user := i.recipientId, ttype := .donation, amount := i.amount,
                balance := recip1.balance, reference := some (.donationRef did) }
            let w4 : World := { w3 with txns := w3.txns ++ [txd, txr] }
            let chart1 :=
              { chart0 with donations := chart0.donations ++ [did]
                            totalDonations := chart0.totalDonations + i.amount }
            let w5 : World := { w4 with charts := aset w4.charts i.chartId chart1 }
            let w6 := pushNotif w5
              { user := i.recipientId, ntype := .donation,
                chartId := some i.chartId, arenaId := none }
            (w6, .ok did donor1.balance recip1.balance)

/-! ## completeArena (Settlement Engine) and POST /api/arenas/:arenaId/complete -/

inductive SettleOutcome
  | settled (winnerId : Nat) (prize : Int)
  /-- the `!arena || arena.status === 'finished'` guard: plain `return;`. -/
  | noop
  /-- a thrown error (missing chart after populate, or missing winner user),
  re-raised to the caller; mutations made before the throw persist. -/
  | failed
deriving DecidableEq

def completeArena (w : World) (arenaId winnerId : Nat) (now : Nat) :
    World × SettleOutcome :=
  match alookup w.arenas arenaId with
  | none => (w, .noop)
  | some ar =>
    if ar.astatus = .finished then (w, .noop)
    else
      let ar1 := { ar with astatus := .finished, endedAt := some now,
                           winner := some winnerId }
      let w1 : World := { w with arenas := aset w.arenas arenaId ar1 }
      match alookup w1.charts ar.chart with
      | none => (w1, .failed)
      | some ch =>
        let ch1 := { ch with cstatus := .completed, winner := some winnerId,
                             endsAt := some now }
        let w2 : World := { w1 with charts := aset w1.charts ar.chart ch1 }
        let totalPrize : Int := ch.entryFee * ch.participants.length
        match alookup w2.users winnerId with
        | none => (w2, .failed)
        | some wu =>
          let wu1 :=
            { wu with balance := wu.balance + totalPrize
                      totalEarned := wu.totalEarned + totalPrize
                      chartsWon := wu.chartsWon + 1 }
          let w3 : World := { w2 with users := aset w2.users winnerId wu1 }
          let tx : Txn :=
            { user := winnerId, ttype := .prize, amount := totalPrize,
              balance := wu1.balance, reference := some (.chartRef ar.chart) }
          let w4 : World := { w3 with txns := w3.txns ++ [tx] }
          let w5 := ar.players.foldl (fun acc p =>
            if p.user ≠ winnerId then
              pushNotif acc { user := p.user, ntype := .chartCompleted,
                              chartId := some ar.chart, arenaId := some arenaId }
            else acc) w4
          let w6 := broadcastToArena w5 arenaId none
            (fun rs => .arenaCompleted rs arenaId winnerId totalPrize)
          (w6, .settled winnerId totalPrize)

/-- HTTP response of POST /api/arenas/:arenaId/complete.  When `completeArena`
returns `undefined` (guard hit) or throws, the handler's
`result.winner` access / the rethrown error lands in the catch and the
route answers 500. -/
inductive CompleteResp | ok (winnerId : Nat) (prize : Int) | serverError
deriving DecidableEq

def completeArenaRoute (w : World) (arenaId winnerId now : Nat) :
    World × CompleteResp :=
  match completeArena w arenaId winnerId now with
  | (w', .settled wid p) => (w', .ok wid p)
  | (w', .noop) => (w', .serverError)
  | (w', .failed) => (w', .serverError)

/-! ## WebSocket handlers -/

/-- A socket: its handle identity, the userId stamped on it by `auth`, and its
`ws.arenas` set. -/
structure Conn where
  connId : Nat
  userId : Option Nat
  arenas : List Nat
deriving DecidableEq

/-- `auth` message: `token` is `some uid` for a token that verifies to user
`uid`, `none` for an invalid token. -/
def wsAuth (w : World) (c : Conn) (token : Option Nat) : World × Conn :=
  match token with
  | none => ({ w with outMsgs := w.outMsgs ++ [.authError c.connId] }, c)
  | some uid =>
    let c1 := { c with userId := some uid }
    let w1 : World := { w with clients := aupsert w.clients uid c.connId }
    let w2 : World :=
      match alookup w1.users uid with
      | some u => { w1 with users := aset w1.users uid { u with ustatus := .online } }
      | none => w1
    let w3 : World := { w2 with outMsgs := w2.outMsgs ++ [.authSuccess c.connId uid] }
    (broadcastToAll w3 (some uid) (fun rs => .userStatus rs uid .online), c1)

/-- `join_arena` message. -/
def wsJoinArena (w : World) (c : Conn) (arenaId : Nat) (now : Nat) : World × Conn :=
  match c.userId with
  | none => ({ w with outMsgs := w.outMsgs ++ [.errorMsg c.connId] }, c)
  | some uid =>
    let c1 := { c with arenas := if arenaId ∈ c.arenas then c.arenas
                                 else c.arenas ++ [arenaId] }
    -- $addToSet on the whole {user, joinedAt} subdocument
    let w1 : World :=
      match alookup w.arenas arenaId with
      | none => w
      | some ar =>
        let entry : Spectator := { user := uid, joinedAt := now }
        if entry ∈ ar.spectators then w
        else
          let ar1 := { ar with spectators := ar.spectators ++ [entry] }
          { w with arenas := aset w.arenas arenaId ar1 }
    let w2 := broadcastToArena w1 arenaId (some uid)
      (fun rs => .spectatorJoined rs arenaId uid)
    ({ w2 with outMsgs := w2.outMsgs ++ [.arenaStateMsg c.connId arenaId] }, c1)

/-- `update_score` message.  NOTE (faithful to the source): the update object
literal is `{ $set: update, $set: { updatedAt: Date.now() } }` — the second
`$set` key overwrites the first, so only `updatedAt` is ever persisted; and
`ChartSchema` has no `winScore` path, so `chart?.winScore || 100` is always
100. -/
def wsUpdateScore (w : World) (c : Conn) (arenaId playerId : Nat) (score : Int)
    (moves : Option Int) (now : Nat) : World :=
  match c.userId with
  | none => w
  | some uid =>
    match alookup w.arenas arenaId with
    | none => w
    | some ar =>
      if ar.players.any (fun p => p.user = uid) then
        let w1 : World :=
          if ar.players.any (fun p => p.user = playerId) then
            { w with arenas := aset w.arenas arenaId { ar with updatedAt := now } }
          else w
        let w2 := broadcastToArena w1 arenaId none
          (fun rs => .scoreUpdate rs arenaId playerId score moves)
        if score ≥ 100 then (completeArena w2 arenaId playerId now).1 else w2
      else w

/-- socket `close` handler.  `connectedClients.delete(ws.userId)` is
unconditional: it does not compare the stored handle with the closing one. -/
def wsClose (w : World) (c : Conn) : World :=
  match c.userId with
  | none => w
  | some uid =>
    let w1 : World := { w with clients := adelete w.clients uid }
    let w2 : World :=
      match alookup w1.users uid with
      | some u => { w1 with users := aset w1.users uid { u with ustatus := .offline } }
      | none => w1
    let w3 := broadcastToAll w2 (some uid) (fun rs => .userStatus rs uid .offline)
    c.arenas.foldl (fun acc aid =>
      let acc1 : World :=
        match alookup acc.arenas aid with
        | some ar =>
          let ar1 := { ar with spectators := ar.spectators.filter fun s => s.user ≠ uid }
          { acc with arenas := aset acc.arenas aid ar1 }
        | none => acc
      broadcastToArena acc1 aid none (fun rs => .spectatorLeft rs aid uid)) w3

/-! ## Balance-affecting operations, as a sequence (claim C2) -/

/-- One balance-affecting operation of the system, with the wall-clock time of
each request made explicit. -/
inductive Op
  | register (i : RegInput)
  | createChart (uid : Nat) (i : CreateChartInput) (now : Nat)
  | joinChart (uid chartId now : Nat)
  | donate (donorId : Nat) (i : DonateInput)
  | deposit (uid : Nat) (amount : Int)
  | settle (arenaId winnerId now : Nat)
deriving DecidableEq

def Op.isSelfDonation : Op → Bool
  | .donate d i => d == i.recipientId
  | _ => false

def step (w : World) : Op → World
  | .register i => (register w i).1
  | .createChart uid i now => (createChart w uid i now).1
  | .joinChart uid cid now => (joinChart w uid cid now).1
  | .donate d i => (donate w d i).1
  | .deposit uid a => (depositOp w uid a).1
  | .settle a wid now => (completeArena w a wid now).1

def initWorld : World :=
  { users := [], charts := [], arenas := [], donations := [], txns := [],
    notifs := [], clients := [], outMsgs := [], nextId := 0 }

def run (ops : List Op) : World := ops.foldl step initWorld

/-- A user's ledger entries, in creation order. -/
def userTxns (uid : Nat) (ts : List Txn) : List Txn :=
  ts.filter fun t => t.user == uid

/-- Replay a ledger from balance `acc`: succeeds iff every entry's recorded
balance equals the running sum of signed amounts, returning the final sum. -/
def replay (acc : Int) : List Txn → Option Int
  | [] => some acc
  | t :: ts => if t.balance = acc + t.amount then replay (acc + t.amount) ts else none

/-- The ledger-reconstruction invariant on the users/ledger/id-counter part of
a world: every user's ledger replays from 0 exactly to their current balance
(so in particular each recorded post-operation balance matches the prefix sum),
every ledger entry belongs to an existing user, and all user ids are below the
id counter. -/
def ledgerInvC (users : List (Nat × UserDoc)) (txns : List Txn) (n : Nat) : Prop :=
  (∀ p ∈ users, replay 0 (userTxns p.1 txns) = some p.2.balance) ∧
  (∀ t ∈ txns, (alookup users t.user).isSome) ∧
  (∀ p ∈ users, p.1 < n)

def ledgerInv (w : World) : Prop := ledgerInvC w.users w.txns w.nextId

instance (users : List (Nat × UserDoc)) (txns : List Txn) (n : Nat) :
    Decidable (ledgerInvC users txns n) := by
  unfold ledgerInvC; infer_instance

instance (w : World) : Decidable (ledgerInv w) := by
  unfold ledgerInv; infer_instance

/-! ## Association-list lemmas -/

theorem alookup_mem {α : Type} {l : List (Nat × α)} {k : Nat} {v : α}
    (h : alookup l k = some v) : (k, v) ∈ l := by
  induction l with
  | nil => simp [alookup] at h
  | cons p ps ih =>
    obtain ⟨a, b⟩ := p
    by_cases hk : a = k
    · subst hk
      simp [alookup] at h
      simp [h]
    · simp [alookup, hk] at h
      exact List.mem_cons_of_mem _ (ih h)

theorem alookup_aset_self {α : Type} {l : List (Nat × α)} {k : Nat} {v0 : α}
    (v : α) (h : alookup l k = some v0) : alookup (aset l k v) k = some v := by
  induction l with
  | nil => simp [alookup] at h
  | cons p ps ih =>
    by_cases hk : p.1 = k
    · simp [aset, alookup, hk]
    · simp [alookup, hk] at h
      simp [aset, alookup, hk]
      exact ih h

theorem alookup_aset_ne {α : Type} (l : List (Nat × α)) (k : Nat) (v : α)
    {k' : Nat} (h : k' ≠ k) : alookup (aset l k v) k' = alookup l k' := by
  induction l with
  | nil => rfl
  | cons p ps ih =>
    by_cases hk : p.1 = k
    · have hkk : ¬ (k = k') := fun hh => h hh.symm
      have hpk : ¬ (p.1 = k') := by rw [hk]; exact hkk
      simp [aset, alookup, hk, hkk, hpk, ih]
    · by_cases hk' : p.1 = k'
      · simp [aset, alookup, hk, hk', h]
      · simp [aset, alookup, hk, hk', ih]

theorem alookup_aset_isSome {α : Type} (l : List (Nat × α)) (k : Nat) (v : α)
    (k' : Nat) : (alookup (aset l k v) k').isSome = (alookup l k').isSome := by
  induction l with
  | nil => rfl
  | cons p ps ih =>
    by_cases hk : p.1 = k
    · by_cases hk' : k = k'
      · have : p.1 = k' := by rw [hk, hk']
        simp [aset, alookup, hk, hk', this]
      · have : ¬ (p.1 = k') := by rw [hk]; exact hk'
        simp [aset, alookup, hk, hk', this, ih]
    · by_cases hk' : p.1 = k'
      · have hne : ¬ (k' = k) := fun hh => hk (hk'.trans hh)
        simp [aset, alookup, hk, hk', hne]
      · simp [aset, alookup, hk, hk', ih]

theorem aset_map_fst {α : Type} (l : List (Nat × α)) (k : Nat) (v : α) :
    (aset l k v).map Prod.fst = l.map Prod.fst := by
  induction l with
  | nil => rfl
  | cons p ps ih =>
    by_cases hk : p.1 = k <;> simp [aset, hk, ih]

theorem mem_aset {α : Type} {l : List (Nat × α)} {k : Nat} {v : α}
    {p' : Nat × α} (h : p' ∈ aset l k v) :
    ∃ p ∈ l, p' = if p.1 = k then (k, v) else p := by
  induction l with
  | nil => simp [aset] at h
  | cons q qs ih =>
    simp only [aset, List.mem_cons] at h
    rcases h with h | h
    · exact ⟨q, List.mem_cons_self _ _, h⟩
    · obtain ⟨p, hp, he⟩ := ih h
      exact ⟨p, List.mem_cons_of_mem _ hp, he⟩

theorem alookup_append_some {α : Type} {l : List (Nat × α)} {k : Nat} {v : α}
    (h : alookup l k = some v) (l' : List (Nat × α)) :
    alookup (l ++ l') k = some v := by
  induction l with
  | nil => simp [alookup] at h
  | cons p ps ih =>
    by_cases hk : p.1 = k <;> simp_all [alookup]

theorem alookup_append_none {α : Type} {l : List (Nat × α)} {k : Nat}
    (h : alookup l k = none) (l' : List (Nat × α)) :
    alookup (l ++ l') k = alookup l' k := by
  induction l with
  | nil => rfl
  | cons p ps ih =>
    by_cases hk : p.1 = k <;> simp_all [alookup]

theorem alookup_adelete_self {α : Type} (l : List (Nat × α)) (k : Nat) :
    alookup (adelete l k) k = none := by
  induction l with
  | nil => rfl
  | cons p ps ih =>
    by_cases hk : p.1 = k <;> simp [adelete, alookup, hk, ih]

theorem alookup_aupsert_self {α : Type} (l : List (Nat × α)) (k : Nat) (v : α) :
    alookup (aupsert l k v) k = some v := by
  unfold aupsert
  by_cases h : (alookup l k).isSome
  · obtain ⟨v0, hv⟩ := Option.isSome_iff_exists.1 h
    simp [h]
    exact alookup_aset_self v hv
  · have hn : alookup l k = none := Option.not_isSome_iff_eq_none.1 h
    simp [h]
    rw [alookup_append_none hn]
    simp [alookup]

/-! ## Ledger replay lemmas -/

theorem replay_append (a : Int) (ts us : List Txn) :
    replay a (ts ++ us) = (replay a ts).bind fun b => replay b us := by
  induction ts generalizing a with
  | nil => simp [replay]
  | cons t ts ih =>
    by_cases h : t.balance = a + t.amount <;> simp [replay, h, ih]

theorem userTxns_append (uid : Nat) (ts us : List Txn) :
    userTxns uid (ts ++ us) = userTxns uid ts ++ userTxns uid us := by
  simp [userTxns]

/-! ## Frame lemmas: notifications and broadcasts do not touch the ledger -/

/-- The world components the ledger invariant and the settlement state read. -/
def core (w : World) :
    List (Nat × UserDoc) × List Txn × Nat × List (Nat × ArenaDoc) ×
      List (Nat × ChartDoc) × List (Nat × DonationDoc) × List (Nat × Nat) :=
  (w.users, w.txns, w.nextId, w.arenas, w.charts, w.donations, w.clients)

theorem core_pushNotif (w : World) (n : NotifDoc) : core (pushNotif w n) = core w := by
  unfold pushNotif
  split <;> rfl

theorem core_broadcastToArena (w : World) (a : Nat) (e : Option Nat)
    (mk : List Nat → OutMsg) : core (broadcastToArena w a e mk) = core w := by
  unfold broadcastToArena
  split <;> rfl

theorem core_broadcastToAll (w : World) (e : Option Nat) (mk : List Nat → OutMsg) :
    core (broadcastToAll w e mk) = core w := rfl

theorem core_foldl {β : Type} (f : World → β → World)
    (hf : ∀ w b, core (f w b) = core w) (l : List β) (w : World) :
    core (l.foldl f w) = core w := by
  induction l generalizing w with
  | nil => rfl
  | cons b bs ih => rw [List.foldl_cons, ih, hf]

theorem users_of_core {w w' : World} (h : core w' = core w) : w'.users = w.users :=
  congrArg (·.1) h

theorem txns_of_core {w w' : World} (h : core w' = core w) : w'.txns = w.txns :=
  congrArg (·.2.1) h

theorem nextId_of_core {w w' : World} (h : core w' = core w) : w'.nextId = w.nextId :=
  congrArg (·.2.2.1) h

theorem arenas_of_core {w w' : World} (h : core w' = core w) : w'.arenas = w.arenas :=
  congrArg (·.2.2.2.1) h

theorem charts_of_core {w w' : World} (h : core w' = core w) : w'.charts = w.charts :=
  congrArg (·.2.2.2.2.1) h

theorem clients_of_core {w w' : World} (h : core w' = core w) :
    w'.clients = w.clients :=
  congrArg (fun x => x.2.2.2.2.2.2) h

theorem foldl_proj {β γ : Type} (g : World → γ) (f : World → β → World)
    (hf : ∀ w b, g (f w b) = g w) (l : List β) (w : World) :
    g (l.foldl f w) = g w := by
  induction l generalizing w with
  | nil => rfl
  | cons b bs ih => rw [List.foldl_cons, ih, hf]

theorem donations_of_core {w w' : World} (h : core w' = core w) :
    w'.donations = w.donations :=
  congrArg (fun x => x.2.2.2.2.2.1) h

theorem pushNotif_users (w : World) (n : NotifDoc) : (pushNotif w n).users = w.users :=
  users_of_core (core_pushNotif w n)

theorem pushNotif_txns (w : World) (n : NotifDoc) : (pushNotif w n).txns = w.txns :=
  txns_of_core (core_pushNotif w n)

theorem pushNotif_charts (w : World) (n : NotifDoc) : (pushNotif w n).charts = w.charts :=
  charts_of_core (core_pushNotif w n)

theorem pushNotif_donations (w : World) (n : NotifDoc) :
    (pushNotif w n).donations = w.donations :=
  donations_of_core (core_pushNotif w n)

theorem ledgerInv_of_core {w w' : World} (h : core w' = core w) (hw : ledgerInv w) :
    ledgerInv w' := by
  unfold ledgerInv
  rw [users_of_core h, txns_of_core h, nextId_of_core h]
  exact hw

/-! ## Preservation lemmas for the ledger invariant -/

/-- Crediting/debiting one existing user together with the matching ledger
entry preserves the invariant. -/
theorem ledgerInvC_tx {users : List (Nat × UserDoc)} {txns : List Txn} {n : Nat}
    (n' k : Nat) (u u' : UserDoc) (t : Txn)
    (hinv : ledgerInvC users txns n)
    (hu : alookup users k = some u)
    (htu : t.user = k)
    (hbal : u'.balance = u.balance + t.amount)
    (htb : t.balance = u'.balance)
    (hn : n ≤ n') :
    ledgerInvC (aset users k u') (txns ++ [t]) n' := by
  obtain ⟨h1, h2, h3⟩ := hinv
  refine ⟨?_, ?_, ?_⟩
  · intro p' hp'
    obtain ⟨p, hp, he⟩ := mem_aset hp'
    by_cases hk : p.1 = k
    · rw [if_pos hk] at he
      subst he
      rw [userTxns_append]
      have hsingle : userTxns k [t] = [t] := by simp [userTxns, htu]
      rw [hsingle, replay_append, h1 (k, u) (alookup_mem hu)]
      simp [replay, htb, hbal]
    · rw [if_neg hk] at he
      subst he
      rw [userTxns_append]
      have hnil : userTxns p'.1 [t] = [] := by
        simp [userTxns, htu]
        exact fun hh => hk hh.symm
      rw [hnil, List.append_nil]
      exact h1 p' hp
  · intro t' ht'
    rcases List.mem_append.1 ht' with ht' | ht'
    · rw [alookup_aset_isSome]
      exact h2 t' ht'
    · have : t' = t := by simpa using ht'
      subst this
      rw [htu, alookup_aset_self u' hu]
      rfl
  · intro p' hp'
    obtain ⟨p, hp, he⟩ := mem_aset hp'
    have hlt : p.1 < n := h3 p hp
    by_cases hk : p.1 = k
    · rw [if_pos hk] at he
      subst he
      omega
    · rw [if_neg hk] at he
      subst he
      omega

/-- Updating an existing user without touching their balance (counter updates)
preserves the invariant. -/
theorem ledgerInvC_set_same_balance {users : List (Nat × UserDoc)}
    {txns : List Txn} {n : Nat} (k : Nat) (u u' : UserDoc)
    (hinv : ledgerInvC users txns n)
    (hu : alookup users k = some u)
    (hb : u'.balance = u.balance) :
    ledgerInvC (aset users k u') txns n := by
  obtain ⟨h1, h2, h3⟩ := hinv
  refine ⟨?_, ?_, ?_⟩
  · intro p' hp'
    obtain ⟨p, hp, he⟩ := mem_aset hp'
    by_cases hk : p.1 = k
    · rw [if_pos hk] at he
      subst he
      rw [hb]
      exact h1 (k, u) (alookup_mem hu)
    · rw [if_neg hk] at he
      subst he
      exact h1 p' hp
  · intro t' ht'
    rw [alookup_aset_isSome]
    exact h2 t' ht'
  · intro p' hp'
    obtain ⟨p, hp, he⟩ := mem_aset hp'
    have hlt : p.1 < n := h3 p hp
    by_cases hk : p.1 = k
    · rw [if_pos hk] at he
      subst he
      omega
    · rw [if_neg hk] at he
      subst he
      omega

/-- Creating a fresh user (id = the counter) with one opening ledger entry
whose amount equals its recorded balance preserves the invariant. -/
theorem ledgerInvC_register {users : List (Nat × UserDoc)} {txns : List Txn}
    {n : Nat} (u' : UserDoc) (t : Txn)
    (hinv : ledgerInvC users txns n)
    (htu : t.user = n)
    (hta : t.balance = t.amount)
    (hub : u'.balance = t.amount) :
    ledgerInvC (users ++ [(n, u')]) (txns ++ [t]) (n + 1) := by
  obtain ⟨h1, h2, h3⟩ := hinv
  have hfresh : ∀ t' ∈ txns, t'.user ≠ n := by
    intro t' ht' hn
    obtain ⟨v, hv⟩ := Option.isSome_iff_exists.1 (h2 t' ht')
    have := h3 (t'.user, v) (alookup_mem hv)
    omega
  have hnone : alookup users n = none := by
    cases hl : alookup users n with
    | none => rfl
    | some v =>
      have := h3 (n, v) (alookup_mem hl)
      omega
  refine ⟨?_, ?_, ?_⟩
  · intro p hp
    rcases List.mem_append.1 hp with hp | hp
    · have hne : p.1 ≠ n := by
        have := h3 p hp
        omega
      rw [userTxns_append]
      have hnil : userTxns p.1 [t] = [] := by
        simp [userTxns, htu]
        exact fun hh => hne hh.symm
      rw [hnil, List.append_nil]
      exact h1 p hp
    · have hpn : p = (n, u') := by simpa using hp
      subst hpn
      rw [userTxns_append]
      have hnil : userTxns n txns = [] := by
        refine List.filter_eq_nil_iff.2 ?_
        intro t' ht'
        simpa using hfresh t' ht'
      have hsingle : userTxns n [t] = [t] := by simp [userTxns, htu]
      rw [hnil, hsingle]
      simp [replay, hta, hub]
  · intro t' ht'
    rcases List.mem_append.1 ht' with ht' | ht'
    · obtain ⟨v, hv⟩ := Option.isSome_iff_exists.1 (h2 t' ht')
      rw [alookup_append_some hv]
      rfl
    · have : t' = t := by simpa using ht'
      subst this
      rw [htu, alookup_append_none hnone]
      simp [alookup]
  · intro p hp
    rcases List.mem_append.1 hp with hp | hp
    · have := h3 p hp
      omega
    · have : p = (n, u') := by simpa using hp
      subst this
      omega

/-- The invariant survives only bumping the id counter. -/
theorem ledgerInvC_mono {users : List (Nat × UserDoc)} {txns : List Txn}
    {n n' : Nat} (hinv : ledgerInvC users txns n) (hn : n ≤ n') :
    ledgerInvC users txns n' := by
  obtain ⟨h1, h2, h3⟩ := hinv
  refine ⟨h1, h2, ?_⟩
  intro p hp
  have := h3 p hp
  omega

/-! ## Per-operation preservation of the ledger invariant -/

theorem register_preserves (w : World) (i : RegInput) (h : ledgerInv w) :
    ledgerInv (register w i).1 := by
  unfold register
  split
  · exact h
  split
  · exact h
  split
  · exact h
  split
  · exact h
  split
  · split <;> exact h
  · exact ledgerInvC_register _ _ h rfl rfl rfl

theorem depositOp_preserves (w : World) (uid : Nat) (a : Int) (h : ledgerInv w) :
    ledgerInv (depositOp w uid a).1 := by
  unfold depositOp
  split
  · exact h
  split
  · exact h
  split
  · exact h
  next u heq =>
    exact ledgerInvC_tx w.nextId uid u _ _ h heq rfl rfl rfl le_rfl

theorem createChart_preserves (w : World) (uid : Nat) (i : CreateChartInput)
    (now : Nat) (h : ledgerInv w) : ledgerInv (createChart w uid i now).1 := by
  simp only [createChart]
  split
  · exact h
  split
  · exact h
  split
  · exact h
  split
  · exact h
  next u heq =>
    split
    · exact h
    · split
      next u2 heq2 =>
        have hu2 : u2 = { u with balance := u.balance - i.entryFee } := by
          rw [alookup_aset_self { u with balance := u.balance - i.entryFee } heq] at heq2
          exact (Option.some.inj heq2).symm
        subst hu2
        refine ledgerInvC_set_same_balance uid { u with balance := u.balance - i.entryFee } _ ?_ (alookup_aset_self _ heq) rfl
        exact ledgerInvC_tx (w.nextId + 1) uid u { u with balance := u.balance - i.entryFee } { user := uid, ttype := .entryFee, amount := -i.entryFee, balance := u.balance - i.entryFee, reference := some .chartCreation } h heq rfl (sub_eq_add_neg u.balance i.entryFee) rfl (Nat.le_succ _)
      next heq2 =>
        rw [alookup_aset_self { u with balance := u.balance - i.entryFee } heq] at heq2
        simp at heq2

theorem joinChart_preserves (w : World) (uid chartId now : Nat) (h : ledgerInv w) :
    ledgerInv (joinChart w uid chartId now).1 := by
  simp only [joinChart]
  split
  · exact h
  next c heqc =>
    split
    · exact h
    split
    · exact h
    split
    · exact h
    split
    · exact h
    split
    · exact h
    next u heq =>
      split
      · exact h
      · refine ledgerInv_of_core (core_pushNotif _ _) ?_
        split
        · refine ledgerInv_of_core (core_foldl _ (fun w' b => core_pushNotif w' _) _ _) ?_
          exact ledgerInvC_tx (w.nextId + 1) uid u _ _ h heq rfl (sub_eq_add_neg u.balance c.entryFee) rfl (Nat.le_succ _)
        · exact ledgerInvC_tx w.nextId uid u _ _ h heq rfl (sub_eq_add_neg u.balance c.entryFee) rfl le_rfl

theorem donate_preserves (w : World) (d : Nat) (i : DonateInput)
    (hne : d ≠ i.recipientId) (h : ledgerInv w) : ledgerInv (donate w d i).1 := by
  simp only [donate]
  split
  · exact h
  split
  · exact h
  split
  · exact h
  next donor0 heqd =>
    split
    · exact h
    split
    · exact h
    next chart0 heqc =>
      split
      · exact h
      next recip0 heqr =>
        refine ledgerInv_of_core (core_pushNotif _ _) ?_
        have inv3 := ledgerInvC_tx (w.nextId + 1) i.recipientId recip0 { recip0 with balance := recip0.balance + i.amount, totalEarned := recip0.totalEarned + i.amount } { user := i.recipientId, ttype := TxType.donation, amount := i.amount, balance := recip0.balance + i.amount, reference := some (TxRef.donationRef w.nextId) } (ledgerInvC_tx (w.nextId + 1) d donor0 { donor0 with balance := donor0.balance - i.amount, totalSupported := donor0.totalSupported + i.amount } { user := d, ttype := TxType.donation, amount := -i.amount, balance := donor0.balance - i.amount, reference := some (TxRef.donationRef w.nextId) } h heqd rfl (sub_eq_add_neg donor0.balance i.amount) rfl (Nat.le_succ _)) (by rw [alookup_aset_ne _ _ _ (fun hh => hne hh.symm)]; exact heqr) rfl rfl rfl le_rfl
        rw [List.append_assoc] at inv3
        exact inv3

theorem completeArena_preserves (w : World) (arenaId winnerId now : Nat)
    (h : ledgerInv w) : ledgerInv (completeArena w arenaId winnerId now).1 := by
  simp only [completeArena]
  split
  · exact h
  next ar heqa =>
    split
    · exact h
    · split
      · exact h
      next ch heqc =>
        split
        · exact h
        next wu hequ =>
          refine ledgerInv_of_core (core_broadcastToArena _ _ _ _) ?_
          refine ledgerInv_of_core (core_foldl _ ?_ _ _) ?_
          · intro w' p
            by_cases hp : p.user ≠ winnerId
            · rw [if_pos hp]
              exact core_pushNotif _ _
            · rw [if_neg hp]
          · exact ledgerInvC_tx w.nextId winnerId wu _ _ h hequ rfl rfl rfl le_rfl

theorem step_preserves (w : World) (op : Op) (hop : op.isSelfDonation = false)
    (h : ledgerInv w) : ledgerInv (step w op) := by
  cases op with
  | register i => exact register_preserves w i h
  | createChart uid i now => exact createChart_preserves w uid i now h
  | joinChart uid cid now => exact joinChart_preserves w uid cid now h
  | donate d i =>
    have hne : d ≠ i.recipientId := by
      simpa [Op.isSelfDonation] using hop
    exact donate_preserves w d i hne h
  | deposit uid a => exact depositOp_preserves w uid a h
  | settle a wid now => exact completeArena_preserves w a wid now h

theorem foldl_step_inv (ops : List Op) : ∀ w : World, ledgerInv w →
    (∀ op ∈ ops, op.isSelfDonation = false) → ledgerInv (ops.foldl step w) := by
  induction ops with
  | nil =>
    intro w h _
    exact h
  | cons op ops ih =>
    intro w h hops
    rw [List.foldl_cons]
    exact ih _ (step_preserves w op (hops op (List.mem_cons_self _ _)) h)
      (fun o ho => hops o (List.mem_cons_of_mem _ ho))

/-- C2 (amended): for every sequence of balance-affecting operations
(registration, chart creation, chart join, donation, deposit, settlement)
starting from the empty store, **provided no donation in the sequence is a
self-donation (donor = recipient)**, every user's ledger reconstructs their
balance: each entry's recorded post-operation balance equals the running sum
of signed amounts, that sum equals the user's current balance at every point,
and every ledger entry belongs to an existing user. -/
theorem ledger_reconstruction (ops : List Op)
    (hops : ∀ op ∈ ops, op.isSelfDonation = false) :
    ledgerInv (run ops) := by
  have hinit : ledgerInv initWorld := by
    refine ⟨?_, ?_, ?_⟩ <;> intro x hx <;> simp [initWorld] at hx
  exact foldl_step_inv ops initWorld hinit hops

/-! ## Shape of a successful settlement -/

/-- When the guard passes and chart and winner exist, `completeArena` reports
`settled` and its effect on the persistent state is exactly: arena finished,
chart completed, winner credited with `entryFee * participants.length`, one
prize ledger entry appended. -/
theorem completeArena_success (w : World) (arenaId winnerId now : Nat)
    (ar : ArenaDoc) (c : ChartDoc) (u : UserDoc)
    (ha : alookup w.arenas arenaId = some ar)
    (hfin : ar.astatus ≠ .finished)
    (hc : alookup w.charts ar.chart = some c)
    (hu : alookup w.users winnerId = some u) :
    core (completeArena w arenaId winnerId now).1 =
      core { w with
        arenas := aset w.arenas arenaId { ar with astatus := .finished, endedAt := some now, winner := some winnerId }
        charts := aset w.charts ar.chart { c with cstatus := .completed, winner := some winnerId, endsAt := some now }
        users := aset w.users winnerId { u with balance := u.balance + c.entryFee * c.participants.length, totalEarned := u.totalEarned + c.entryFee * c.participants.length, chartsWon := u.chartsWon + 1 }
        txns := w.txns ++ [{ user := winnerId, ttype := .prize, amount := c.entryFee * c.participants.length, balance := u.balance + c.entryFee * c.participants.length, reference := some (.chartRef ar.chart) }] } ∧
    (completeArena w arenaId winnerId now).2 =
      .settled winnerId (c.entryFee * c.participants.length) := by
  simp only [completeArena, ha, hc, hu]
  rw [if_neg hfin]
  refine ⟨?_, rfl⟩
  refine Eq.trans (core_broadcastToArena _ _ _ _) ?_
  refine Eq.trans (core_foldl _ ?_ _ _) rfl
  intro w' p
  by_cases hp : p.user ≠ winnerId
  · rw [if_pos hp]
    exact core_pushNotif _ _
  · rw [if_neg hp]

/-! ## Concrete fixtures -/

/-- A fresh user with the given name and balance and zeroed counters. -/
def mkUser (name : String) (bal : Int) : UserDoc :=
  { username := name, email := name ++ "@x.com", displayName := name,
    balance := bal, totalEarned := 0, totalSupported := 0,
    chartsCreated := 0, chartsWon := 0, ustatus := .offline }

/-! ## C3 -/

/-- C3: on a settlement whose arena exists and is not yet finished, whose chart
exists and whose winner user exists, the total prize is
`entryFee * participants.length` (computed from the chart's participant list,
not from `prizePool`); the winner's balance and total-earned counter each grow
by exactly that amount, the charts-won counter grows by 1, and exactly one
`prize` ledger entry for that amount, carrying the new balance and referencing
the chart, is appended. -/
theorem settlement_prize_formula (w : World) (arenaId winnerId now : Nat)
    (ar : ArenaDoc) (c : ChartDoc) (u : UserDoc)
    (ha : alookup w.arenas arenaId = some ar)
    (hfin : ar.astatus ≠ .finished)
    (hc : alookup w.charts ar.chart = some c)
    (hu : alookup w.users winnerId = some u) :
    (completeArena w arenaId winnerId now).2 =
      .settled winnerId (c.entryFee * c.participants.length) ∧
    alookup (completeArena w arenaId winnerId now).1.users winnerId =
      some { u with balance := u.balance + c.entryFee * c.participants.length,
                    totalEarned := u.totalEarned + c.entryFee * c.participants.length,
                    chartsWon := u.chartsWon + 1 } ∧
    (completeArena w arenaId winnerId now).1.txns =
      w.txns ++ [{ user := winnerId, ttype := .prize, amount := c.entryFee * c.participants.length, balance := u.balance + c.entryFee * c.participants.length, reference := some (.chartRef ar.chart) }] := by
  obtain ⟨hcore, hout⟩ := completeArena_success w arenaId winnerId now ar c u ha hfin hc hu
  refine ⟨hout, ?_, ?_⟩
  · rw [users_of_core hcore]
    exact alookup_aset_self _ hu
  · rw [txns_of_core hcore]

/-- Fixture for the C3 witness: a live two-player arena over a chart with
entry fee 20 and two participants. -/
def wC3 : World :=
  { users := [(1, mkUser "alice" 50), (2, mkUser "bob" 60)]
    charts := [(10,
      { creator := 1, entryFee := 20, prize := 40, prizePool := 40,
        cstatus := .inProgress,
        participants := [{ user := 1, joinedAt := 0, score := 0, moves := 0, pstatus := .active },
                         { user := 2, joinedAt := 5, score := 0, moves := 0, pstatus := .pending }]
        maxParticipants := 2, minParticipants := 2, startsAt := 1000, endsAt := none
        donations := [], totalDonations := 0, winner := none })]
    arenas := [(30,
      { chart := 10
        players := [{ user := 1, score := 0, moves := 0, plstatus := .playing },
                    { user := 2, score := 0, moves := 0, plstatus := .playing }]
        astatus := .live, spectators := [], winner := none
        startedAt := some 5, endedAt := none, updatedAt := 5 })]
    donations := [], txns := [], notifs := [], clients := [], outMsgs := []
    nextId := 40 }

theorem settlement_prize_formula_witness :
    (completeArena wC3 30 1 9).2 = .settled 1 40 ∧
    alookup (completeArena wC3 30 1 9).1.users 1 =
      some { mkUser "alice" 50 with balance := 90, totalEarned := 40, chartsWon := 1 } ∧
    (completeArena wC3 30 1 9).1.txns =
      [{ user := 1, ttype := .prize, amount := 40, balance := 90,
         reference := some (.chartRef 10) }] := by
  have h := settlement_prize_formula wC3 30 1 9
    ((alookup wC3.arenas 30).get (by decide))
    ((alookup wC3.charts 10).get (by decide))
    ((alookup wC3.users 1).get (by decide))
    (by decide) (by decide) (by decide) (by decide)
  revert h
  decide

/-! ## C1 -/

/-- Fixture for C1: a live two-player arena (id 30) over chart 10 with entry
fee 20 and two participants. -/
def wC1 : World :=
  { users := [(1, mkUser "carol" 10), (2, mkUser "dave" 15)]
    charts := [(10,
      { creator := 1, entryFee := 20, prize := 40, prizePool := 40,
        cstatus := .inProgress,
        participants := [{ user := 1, joinedAt := 0, score := 0, moves := 0, pstatus := .active },
                         { user := 2, joinedAt := 5, score := 0, moves := 0, pstatus := .pending }]
        maxParticipants := 2, minParticipants := 2, startsAt := 1000, endsAt := none
        donations := [], totalDonations := 0, winner := none })]
    arenas := [(30,
      { chart := 10
        players := [{ user := 1, score := 0, moves := 0, plstatus := .playing },
                    { user := 2, score := 0, moves := 0, plstatus := .playing }]
        astatus := .live, spectators := [], winner := none
        startedAt := some 5, endedAt := none, updatedAt := 5 })]
    donations := [], txns := [], notifs := [], clients := [], outMsgs := []
    nextId := 40 }

/-- C1, counterexample: after a first successful
`POST /api/arenas/30/complete`, the second call mutates nothing but answers a
500 server error (`completeArena` returns `undefined`, so the handler crashes
on `result.winner`), not the already-settled result and not a ConflictError. -/
theorem settlement_second_call_is_500 :
    (completeArenaRoute wC1 30 1 5).2 = .ok 1 40 ∧
    (completeArenaRoute (completeArenaRoute wC1 30 1 5).1 30 1 6).1 =
      (completeArenaRoute wC1 30 1 5).1 ∧
    (completeArenaRoute (completeArenaRoute wC1 30 1 5).1 30 1 6).2 =
      .serverError := by
  decide

/-- From a `settled` outcome, the stored arena is finished. -/
theorem completeArena_settled_finished {w : World} {a uid now : Nat}
    {w1 : World} {wid : Nat} {p : Int}
    (h : completeArena w a uid now = (w1, .settled wid p)) :
    ∃ ar : ArenaDoc, alookup w1.arenas a = some ar ∧ ar.astatus = .finished := by
  simp only [completeArena] at h
  split at h
  · simp [Prod.ext_iff] at h
  next ar heqa =>
    split at h
    · simp [Prod.ext_iff] at h
    · split at h
      · simp [Prod.ext_iff] at h
      next ch heqc =>
        split at h
        · simp [Prod.ext_iff] at h
        next wu hequ =>
          obtain ⟨hw, -⟩ := Prod.mk.injEq .. ▸ h
          refine ⟨{ ar with astatus := .finished, endedAt := some now, winner := some uid }, ?_, rfl⟩
          rw [← hw]
          rw [arenas_of_core (core_broadcastToArena _ _ _ _)]
          rw [arenas_of_core (core_foldl _ ?_ _ _)]
          · exact alookup_aset_self _ heqa
          · intro w2 pl
            by_cases hp : pl.user ≠ uid
            · rw [if_pos hp]
              exact core_pushNotif _ _
            · rw [if_neg hp]

/-- C1 (amended): settlement is idempotent in its effects — after a first
successful `completeArena(arenaId, winnerId)`, a second call performs no
mutation whatsoever (same world: no prize credit, no ledger entry, no
notification, no broadcast) — but the second call returns nothing
(`undefined`), which the HTTP endpoint surfaces as a 500 InternalError rather
than the already-settled result or a ConflictError. -/
theorem settlement_idempotent_noop {w w1 : World} {a uid now : Nat}
    {wid : Nat} {p : Int} (uid2 now2 : Nat)
    (h : completeArena w a uid now = (w1, .settled wid p)) :
    completeArena w1 a uid2 now2 = (w1, .noop) ∧
    completeArenaRoute w1 a uid2 now2 = (w1, .serverError) := by
  obtain ⟨ar, har, hfin⟩ := completeArena_settled_finished h
  have hmain : completeArena w1 a uid2 now2 = (w1, .noop) := by
    simp [completeArena, har, hfin]
  exact ⟨hmain, by simp [completeArenaRoute, hmain]⟩

theorem settlement_idempotent_noop_witness :
    completeArena (completeArena wC1 30 1 5).1 30 2 6 =
      ((completeArena wC1 30 1 5).1, .noop) :=
  (@settlement_idempotent_noop wC1 ((completeArena wC1 30 1 5).1) 30 1 5 1 40 2 6 (by decide)).1

/-! ## C10 -/

/-- C10: every successful registration creates the user with balance exactly
100 and writes exactly one ledger entry — type `bonus`, amount +100, recorded
balance 100 — so the new user's ledger history is non-empty and already
replays to their starting balance. -/
theorem register_welcome_bonus (w : World) (i : RegInput)
    (h1 : ¬ (i.username = "" ∨ i.email = "" ∨ i.password = ""))
    (h2 : ¬ (i.username.length < 3 ∨ i.username.length > 20))
    (h3 : ¬ i.password.length < 6)
    (h4 : validUsernameChars i.username = true)
    (h5 : w.users.find? (fun p => p.2.email = i.email.toLower || p.2.username = i.username.toLower) = none)
    (hfresh : ∀ t ∈ w.txns, t.user ≠ w.nextId) :
    (register w i).2 = .ok w.nextId ∧
    ∃ u : UserDoc,
      (register w i).1.users = w.users ++ [(w.nextId, u)] ∧
      u.balance = 100 ∧
      (register w i).1.txns = w.txns ++ [{ user := w.nextId, ttype := .bonus, amount := 100, balance := 100, reference := none }] ∧
      userTxns w.nextId (register w i).1.txns = [{ user := w.nextId, ttype := .bonus, amount := 100, balance := 100, reference := none }] ∧
      replay 0 (userTxns w.nextId (register w i).1.txns) = some u.balance := by
  have hnil : userTxns w.nextId w.txns = [] := by
    refine List.filter_eq_nil_iff.2 ?_
    intro t ht
    simpa using hfresh t ht
  simp only [register, h5]
  rw [if_neg h1, if_neg h2, if_neg h3, if_neg (not_not_intro h4)]
  refine ⟨rfl, _, rfl, rfl, rfl, ?_, ?_⟩
  · rw [userTxns_append, hnil]
    simp [userTxns]
  · rw [userTxns_append, hnil]
    simp [userTxns, replay]

theorem register_welcome_bonus_witness :
    (register initWorld { username := "frank", email := "f@x.com", password := "hunter2", displayName := "" }).2 = .ok 0 ∧
    ∃ u : UserDoc,
      (register initWorld { username := "frank", email := "f@x.com", password := "hunter2", displayName := "" }).1.users = initWorld.users ++ [(0, u)] ∧
      u.balance = 100 ∧
      (register initWorld { username := "frank", email := "f@x.com", password := "hunter2", displayName := "" }).1.txns = initWorld.txns ++ [{ user := 0, ttype := .bonus, amount := 100, balance := 100, reference := none }] ∧
      userTxns 0 (register initWorld { username := "frank", email := "f@x.com", password := "hunter2", displayName := "" }).1.txns = [{ user := 0, ttype := .bonus, amount := 100, balance := 100, reference := none }] ∧
      replay 0 (userTxns 0 (register initWorld { username := "frank", email := "f@x.com", password := "hunter2", displayName := "" }).1.txns) = some u.balance :=
  register_welcome_bonus initWorld _ (by decide) (by decide) (by decide) (by decide)
    (by decide) (by decide)

/-! ## C9 -/

/-- C9: a donation request failing a precondition — non-positive amount,
below-minimum amount, insufficient donor balance, chart not found, or
recipient not found — returns a typed error and mutates nothing: no donation
record, no ledger entry, no balance, counter or chart change. -/
theorem donation_precondition_atomicity (w : World) (d : Nat) (i : DonateInput)
    (h : i.amount ≤ 0 ∨ i.amount < 10 ∨
      (∃ u, alookup w.users d = some u ∧ u.balance < i.amount) ∨
      alookup w.charts i.chartId = none ∨
      alookup w.users i.recipientId = none) :
    (donate w d i).1 = w ∧ ∃ e, (donate w d i).2 = .err e := by
  simp only [donate]
  split
  · exact ⟨rfl, _, rfl⟩
  next h1 =>
    split
    · exact ⟨rfl, _, rfl⟩
    next h2 =>
      split
      · exact ⟨rfl, _, rfl⟩
      next donor0 heqd =>
        split
        · exact ⟨rfl, _, rfl⟩
        next h3 =>
          split
          · exact ⟨rfl, _, rfl⟩
          next chart0 heqc =>
            split
            · exact ⟨rfl, _, rfl⟩
            next recip0 heqr =>
              exfalso
              rcases h with h | h | ⟨u, hu, hlt⟩ | h | h
              · exact h1 h
              · exact h2 h
              · obtain rfl := Option.some.inj (heqd.symm.trans hu)
                exact h3 hlt
              · exact Option.noConfusion (h.symm.trans heqc)
              · exact Option.noConfusion (h.symm.trans heqr)

theorem donation_precondition_atomicity_witness :
    (donate wC3 1 { chartId := 10, recipientId := 2, amount := 5 }).1 = wC3 ∧
    ∃ e, (donate wC3 1 { chartId := 10, recipientId := 2, amount := 5 }).2 = .err e :=
  donation_precondition_atomicity wC3 1 _ (Or.inr (Or.inl (by decide)))

/-! ## C6 -/

/-- Fixture for C6: two users and a chart to donate on. -/
def wC6 : World :=
  { users := [(1, mkUser "eve" 100), (2, mkUser "frank" 50)]
    charts := [(10,
      { creator := 2, entryFee := 10, prize := 20, prizePool := 20,
        cstatus := .opened,
        participants := [{ user := 2, joinedAt := 0, score := 0, moves := 0, pstatus := .active }]
        maxParticipants := 2, minParticipants := 2, startsAt := 1000, endsAt := none
        donations := [], totalDonations := 0, winner := none })]
    arenas := [], donations := [], txns := [], notifs := [], clients := []
    outMsgs := [], nextId := 20 }

/-- C6, counterexample: a self-donation (donor = recipient — nothing in the
code forbids it) satisfies every precondition the claim lists and completes,
but the donor's balance ends at b + a = 110, not b − a = 90: the recipient
document was loaded before the donor's debit was saved, so its save overwrites
the debit. -/
theorem donation_self_donation_cex :
    (donate wC6 1 { chartId := 10, recipientId := 1, amount := 10 }).2 =
      .ok 20 90 110 ∧
    alookup (donate wC6 1 { chartId := 10, recipientId := 1, amount := 10 }).1.users 1 =
      some { mkUser "eve" 100 with balance := 110, totalEarned := 10 } ∧
    (110 : Int) ≠ 100 - 10 := by decide

/-- C6 (amended): for every donation with **donor ≠ recipient** that passes
the preconditions, exactly two ledger entries are appended — donor side −a at
recorded balance b_d − a, recipient side +a at recorded balance b_r + a, both
referencing the same (fresh) donation id — the donor's balance becomes
b_d − a, the recipient's b_r + a, the chart's totalDonations grows by a, and
the completed donation record is stored. -/
theorem donation_two_ledger_entries (w : World) (d : Nat) (i : DonateInput)
    (du ru : UserDoc) (ch : ChartDoc)
    (hne : d ≠ i.recipientId)
    (hd : alookup w.users d = some du)
    (hmin : ¬ i.amount < 10)
    (hbal : ¬ du.balance < i.amount)
    (hch : alookup w.charts i.chartId = some ch)
    (hr : alookup w.users i.recipientId = some ru) :
    (donate w d i).2 = .ok w.nextId (du.balance - i.amount) (ru.balance + i.amount) ∧
    alookup (donate w d i).1.users d = some { du with balance := du.balance - i.amount, totalSupported := du.totalSupported + i.amount } ∧
    alookup (donate w d i).1.users i.recipientId = some { ru with balance := ru.balance + i.amount, totalEarned := ru.totalEarned + i.amount } ∧
    (donate w d i).1.txns = w.txns ++ [{ user := d, ttype := .donation, amount := -i.amount, balance := du.balance - i.amount, reference := some (.donationRef w.nextId) }, { user := i.recipientId, ttype := .donation, amount := i.amount, balance := ru.balance + i.amount, reference := some (.donationRef w.nextId) }] ∧
    alookup (donate w d i).1.charts i.chartId = some { ch with donations := ch.donations ++ [w.nextId], totalDonations := ch.totalDonations + i.amount } ∧
    (donate w d i).1.donations = w.donations ++ [(w.nextId, { user := d, chart := i.chartId, recipient := i.recipientId, amount := i.amount, dstatus := .completed })] := by
  have h0 : ¬ i.amount ≤ 0 := by omega
  simp only [donate, hd, hch, hr]
  rw [if_neg h0, if_neg hmin, if_neg hbal]
  refine ⟨rfl, ?_, ?_, ?_, ?_, ?_⟩
  · rw [pushNotif_users, alookup_aset_ne _ _ _ hne]
    exact alookup_aset_self _ hd
  · rw [pushNotif_users]
    have hr2 : alookup (aset w.users d { du with balance := du.balance - i.amount, totalSupported := du.totalSupported + i.amount }) i.recipientId = some ru := by
      rw [alookup_aset_ne _ _ _ (fun hh => hne hh.symm)]
      exact hr
    exact alookup_aset_self _ hr2
  · rw [pushNotif_txns]
  · rw [pushNotif_charts]
    exact alookup_aset_self _ hch
  · rw [pushNotif_donations]

theorem donation_two_ledger_entries_witness :
    (donate wC6 1 { chartId := 10, recipientId := 2, amount := 30 }).2 = .ok 20 70 80 ∧
    alookup (donate wC6 1 { chartId := 10, recipientId := 2, amount := 30 }).1.users 1 =
      some { mkUser "eve" 100 with balance := 70, totalSupported := 30 } ∧
    alookup (donate wC6 1 { chartId := 10, recipientId := 2, amount := 30 }).1.users 2 =
      some { mkUser "frank" 50 with balance := 80, totalEarned := 30 } := by
  have h := donation_two_ledger_entries wC6 1 { chartId := 10, recipientId := 2, amount := 30 }
    (mkUser "eve" 100) (mkUser "frank" 50)
    ((alookup wC6.charts 10).get (by decide))
    (by decide) (by decide) (by decide) (by decide) (by decide) (by decide)
  exact ⟨h.1, h.2.1, h.2.2.1⟩

/-! ## C2 counterexample and witness -/

/-- A run whose last operation is a self-donation: register (id 0, balance
100), create a free chart (id 1), donate 10 from user 0 to user 0. -/
def opsC2 : List Op :=
  [ .register { username := "eve", email := "e@x.com", password := "secret", displayName := "" },
    .createChart 0 { title := "t", game := "g", entryFee := 0, prize := 0, maxParticipants := some 2, minParticipants := none } 0,
    .donate 0 { chartId := 1, recipientId := 0, amount := 10 } ]

/-- C2, counterexample: after a self-donation of 10 the user's balance is 110
but the signed amounts of their ledger (+100, 0, −10, +10) sum to 100, and
the final entry's recorded balance (110) differs from the running sum (100):
the invariant as claimed fails on a sequence the API accepts. -/
theorem ledger_reconstruction_self_donation_cex :
    (alookup (run opsC2).users 0).map UserDoc.balance = some 110 ∧
    ((run opsC2).txns.map Txn.amount).sum = 100 ∧
    ¬ ledgerInv (run opsC2) := by decide

/-- A self-donation-free run exercising every operation kind. -/
def opsC2w : List Op :=
  [ .register { username := "gina", email := "g@x.com", password := "secret", displayName := "" },
    .register { username := "hank", email := "h@x.com", password := "secret", displayName := "" },
    .deposit 0 40,
    .createChart 0 { title := "c", game := "g", entryFee := 10, prize := 0, maxParticipants := some 2, minParticipants := none } 0,
    .joinChart 1 2 5,
    .donate 1 { chartId := 2, recipientId := 0, amount := 10 },
    .settle 3 1 50 ]

theorem ledger_reconstruction_witness : ledgerInv (run opsC2w) :=
  ledger_reconstruction opsC2w (by decide)

/-! ## C5 -/

/-- Fixture for C5: an open chart (id 10) with entry fee 20, two slots and no
participants yet; users 1, 2 (parametric balances), 3 and the chart owner 4. -/
def wC5 (b1 b2 : Int) : World :=
  { users := [(1, mkUser "pat" b1), (2, mkUser "quinn" b2),
              (3, mkUser "ray" 30), (4, mkUser "owner" 0)]
    charts := [(10,
      { creator := 4, entryFee := 20, prize := 40, prizePool := 40,
        cstatus := .opened, participants := [], maxParticipants := 2,
        minParticipants := 2, startsAt := 1000, endsAt := none,
        donations := [], totalDonations := 0, winner := none })]
    arenas := [], donations := [], txns := [], notifs := [], clients := []
    outMsgs := [], nextId := 20 }

/-- The world after users 1 and 2 have both joined chart 10. -/
def wC5after (b1 b2 : Int) : World :=
  (joinChart (joinChart (wC5 b1 b2) 1 10 0).1 2 10 0).1

/-- C5, counterexample: once the second join fills the chart its status flips
to in-progress, so the third join is rejected by the status guard with
"Chart is not open" — the "Chart is full" ConflictError of the claim is
unreachable in this flow. -/
theorem chart_full_scenario_cex :
    (joinChart (wC5after 100 100) 3 10 0).2 = .err .notOpen ∧
    (joinChart (wC5after 100 100) 3 10 0).2 ≠ .err .full := by decide

/-- C5 (amended): with maxParticipants = 2 and entryFee = 20, after two
distinct users with sufficient balance join, the chart is in-progress and
exactly one arena exists for it whose players are the snapshot of the two
participants (score 0, status playing); a third user's join attempt returns
ConflictError "Chart is not open" (the status guard shadows the dead
"Chart is full" branch) and mutates nothing. -/
theorem chart_full_scenario (b1 b2 : Int) (h1 : ¬ b1 < 20) (h2 : ¬ b2 < 20) :
    (joinChart (wC5 b1 b2) 1 10 0).2 = .ok 1 ∧
    (joinChart (joinChart (wC5 b1 b2) 1 10 0).1 2 10 0).2 = .ok 2 ∧
    (alookup (wC5after b1 b2).charts 10).map ChartDoc.cstatus = some .inProgress ∧
    ((wC5after b1 b2).arenas.filter fun p => p.2.chart == 10).map (fun p => p.2.players) =
      [[{ user := 1, score := 0, moves := 0, plstatus := .playing },
        { user := 2, score := 0, moves := 0, plstatus := .playing }]] ∧
    joinChart (wC5after b1 b2) 3 10 0 = (wC5after b1 b2, .err .notOpen) := by
  unfold wC5after wC5
  simp [joinChart, mkUser, alookup, aset, pushNotif, broadcastToArena, h1, h2, userTxns]

/-- Witness for C5 at balances 100/100. -/
theorem chart_full_scenario_witness :
    (joinChart (wC5 100 100) 1 10 0).2 = .ok 1 ∧
    (joinChart (joinChart (wC5 100 100) 1 10 0).1 2 10 0).2 = .ok 2 ∧
    (alookup (wC5after 100 100).charts 10).map ChartDoc.cstatus = some .inProgress ∧
    ((wC5after 100 100).arenas.filter fun p => p.2.chart == 10).map (fun p => p.2.players) =
      [[{ user := 1, score := 0, moves := 0, plstatus := .playing },
        { user := 2, score := 0, moves := 0, plstatus := .playing }]] ∧
    joinChart (wC5after 100 100) 3 10 0 = (wC5after 100 100, .err .notOpen) :=
  chart_full_scenario 100 100 (by decide) (by decide)

/-! ## C4 -/

/-- Fixture for C4: a live two-player arena (id 30, chart 10), both players
connected; the reporting connection is player 1's. -/
def wC4 : World :=
  { users := [(1, mkUser "sam" 10), (2, mkUser "tess" 10)]
    charts := [(10,
      { creator := 1, entryFee := 20, prize := 40, prizePool := 40,
        cstatus := .inProgress,
        participants := [{ user := 1, joinedAt := 0, score := 0, moves := 0, pstatus := .active },
                         { user := 2, joinedAt := 5, score := 0, moves := 0, pstatus := .pending }]
        maxParticipants := 2, minParticipants := 2, startsAt := 1000, endsAt := none
        donations := [], totalDonations := 0, winner := none })]
    arenas := [(30,
      { chart := 10
        players := [{ user := 1, score := 0, moves := 0, plstatus := .playing },
                    { user := 2, score := 0, moves := 0, plstatus := .playing }]
        astatus := .live, spectators := [], winner := none
        startedAt := some 5, endedAt := none, updatedAt := 5 })]
    donations := [], txns := [], notifs := [], clients := [(1, 101), (2, 102)]
    outMsgs := [], nextId := 40 }

def cC4 : Conn := { connId := 101, userId := some 1, arenas := [] }

/-- C4: evidence for the code bug — an authorized `update_score` for player 1
with score 50 fans out `score_update{score: 50}` to the arena audience and
does not settle, but the persisted player score stays 0: the update object
literal repeats the `$set` key, so only `updatedAt` is written.  At score 150
settlement does fire (the reported score is compared against the constant
threshold 100) while the persisted score is still 0. -/
theorem update_score_not_persisted :
    (alookup (wsUpdateScore wC4 cC4 30 1 50 none 99).arenas 30).map ArenaDoc.players =
      some [{ user := 1, score := 0, moves := 0, plstatus := .playing },
            { user := 2, score := 0, moves := 0, plstatus := .playing }] ∧
    (alookup (wsUpdateScore wC4 cC4 30 1 50 none 99).arenas 30).map ArenaDoc.updatedAt =
      some 99 ∧
    (wsUpdateScore wC4 cC4 30 1 50 none 99).outMsgs = [.scoreUpdate [1, 2] 30 1 50 none] ∧
    (alookup (wsUpdateScore wC4 cC4 30 1 50 none 99).arenas 30).map ArenaDoc.astatus =
      some .live ∧
    (alookup (wsUpdateScore wC4 cC4 30 1 150 none 99).arenas 30).map ArenaDoc.astatus =
      some .finished ∧
    (alookup (wsUpdateScore wC4 cC4 30 1 150 none 99).arenas 30).map ArenaDoc.players =
      some [{ user := 1, score := 0, moves := 0, plstatus := .playing },
            { user := 2, score := 0, moves := 0, plstatus := .playing }] := by
  decide

/-! ## C7 -/

/-- Fixture for C7: an arena with no spectators; user 5 is connected. -/
def wC7 : World :=
  { users := [(5, mkUser "uma" 10)], charts := []
    arenas := [(30,
      { chart := 10, players := [], astatus := .live, spectators := []
        winner := none, startedAt := some 0, endedAt := none, updatedAt := 0 })]
    donations := [], txns := [], notifs := [], clients := [(5, 109)]
    outMsgs := [], nextId := 40 }

def cC7 : Conn := { connId := 109, userId := some 5, arenas := [] }

/-- C7: evidence for the code bug — user 5 joins arena 30 as spectator at
t = 1000, then again at t = 2000: the `$addToSet` element embeds `joinedAt`,
so the second join appends a second entry for the same user instead of being
a no-op on the set. -/
theorem spectator_join_duplicate :
    (alookup (wsJoinArena ((wsJoinArena wC7 cC7 30 1000).1) ((wsJoinArena wC7 cC7 30 1000).2) 30 2000).1.arenas 30).map ArenaDoc.spectators =
      some [{ user := 5, joinedAt := 1000 }, { user := 5, joinedAt := 2000 }] ∧
    (alookup (wsJoinArena ((wsJoinArena wC7 cC7 30 1000).1) ((wsJoinArena wC7 cC7 30 1000).2) 30 2000).1.arenas 30).map
        (fun ar => ar.spectators.countP fun sp => sp.user == 5) = some 2 := by
  decide

/-! ## C8 -/

/-- `auth` stores the handle with `Map.set`: insert-or-replace. -/
theorem wsAuth_clients (w : World) (c : Conn) (u : Nat) :
    (wsAuth w c (some u)).1.clients = aupsert w.clients u c.connId := by
  simp only [wsAuth]
  rw [clients_of_core (core_broadcastToAll _ _ _)]
  split <;> rfl

theorem wsAuth_conn (w : World) (c : Conn) (u : Nat) :
    (wsAuth w c (some u)).2 = { c with userId := some u } := rfl

/-- `close` deletes the user's registry entry unconditionally. -/
theorem wsClose_clients (w : World) (c : Conn) (u : Nat) (h : c.userId = some u) :
    (wsClose w c).clients = adelete w.clients u := by
  simp only [wsClose, h]
  rw [foldl_proj World.clients]
  · rw [clients_of_core (core_broadcastToAll _ _ _)]
    split <;> rfl
  · intro w' aid
    rw [clients_of_core (core_broadcastToArena _ _ _ _)]
    split <;> rfl

/-- Fixture for C8: one registered user, empty registry. -/
def wC8 : World :=
  { users := [(7, mkUser "vic" 10)], charts := [], arenas := [], donations := []
    txns := [], notifs := [], clients := [], outMsgs := [], nextId := 40 }

/-- C8, counterexample: after register(7, conn 101); register(7, conn 102);
close of conn 101, the lookup for user 7 is absent — the close handler
deleted unconditionally and evicted the newer handle 102, contradicting the
claimed stale-disconnect safety. -/
theorem registry_stale_close_evicts :
    alookup (wsAuth wC8 { connId := 101, userId := none, arenas := [] } (some 7)).1.clients 7 = some 101 ∧
    alookup (wsAuth (wsAuth wC8 { connId := 101, userId := none, arenas := [] } (some 7)).1 { connId := 102, userId := none, arenas := [] } (some 7)).1.clients 7 = some 102 ∧
    alookup (wsClose (wsAuth (wsAuth wC8 { connId := 101, userId := none, arenas := [] } (some 7)).1 { connId := 102, userId := none, arenas := [] } (some 7)).1 ((wsAuth wC8 { connId := 101, userId := none, arenas := [] } (some 7)).2)).clients 7 = none := by
  decide

/-- C8 (amended): registering a handle replaces any prior one, but the close
handler removes the user's mapping unconditionally — it never compares the
stored handle with the closing connection's — so after
register(u,h1); register(u,h2); close(h1) the lookup for u is absent: a stale
disconnect evicts the newer session. -/
theorem registry_close_unconditional (w : World) (u : Nat) (c1 c2 : Conn) :
    alookup (wsAuth w c1 (some u)).1.clients u = some c1.connId ∧
    alookup (wsAuth (wsAuth w c1 (some u)).1 c2 (some u)).1.clients u = some c2.connId ∧
    alookup (wsClose (wsAuth (wsAuth w c1 (some u)).1 c2 (some u)).1
      (wsAuth w c1 (some u)).2).clients u = none := by
  refine ⟨?_, ?_, ?_⟩
  · rw [wsAuth_clients]
    exact alookup_aupsert_self _ _ _
  · rw [wsAuth_clients]
    exact alookup_aupsert_self _ _ _
  · rw [wsClose_clients _ _ u (by rw [wsAuth_conn])]
    exact alookup_adelete_self _ _

end Thumbs
